import Mathlib

set_option maxRecDepth 10000

/-!
Verification of the einkDisplay image converter (convert.py).

The script converts images to fixed-size, palette-quantized bitmaps for a
Waveshare e-ink photo frame.  The development below gives a shallow
embedding of its stages: argument parsing, validation, geometry planning,
compositing offsets, palette quantization, output naming and the batch
driver.  Python's exception flow is made explicit with Except, Python's
true division with a rational division that signals division by zero, and
Python's int() with truncation toward zero.
-/

/-- Python exceptions the script can raise or catch. -/
inductive PyErr where
  | attributeErr (name : String)
  | zeroDivisionErr
  | systemExit
  deriving DecidableEq, Repr

/-- Python true division on rationals: raises ZeroDivisionError on a zero
divisor, otherwise returns the exact quotient. -/
def pyDiv (a b : ℚ) : Except PyErr ℚ :=
  if b = 0 then Except.error PyErr.zeroDivisionErr else Except.ok (a / b)

/-- Python int() on a nonnegative-or-negative rational: truncation toward
zero, matching the int cast applied to width*scale and height*scale. -/
def intTrunc (q : ℚ) : ℤ := q.num.tdiv (q.den : ℤ)

/-- Embeds the assignment scale_ratio = max(target_width / width,
target_height / height) at line 87 of convert.py, with Python division
made explicit so a zero width or height raises ZeroDivisionError. -/
def coverScale (target_width target_height width height : ℕ) : Except PyErr ℚ := do
  let a ← pyDiv (target_width : ℚ) (width : ℚ)
  let b ← pyDiv (target_height : ℚ) (height : ℚ)
  Except.ok (max a b)

/-- Embeds lines 90-91 of convert.py: resized_width = int(width * scale_ratio)
and resized_height = int(height * scale_ratio). -/
def resizedSize (target_width target_height width height : ℕ) : Except PyErr (ℤ × ℤ) := do
  let s ← coverScale target_width target_height width height
  Except.ok (intTrunc ((width : ℚ) * s), intTrunc ((height : ℚ) * s))

/-- Decidable equality of Except results, for evaluating the embedded
pipeline on concrete inputs. -/
instance {ε α : Type} [DecidableEq ε] [DecidableEq α] :
    DecidableEq (Except ε α) := fun a b =>
  match a, b with
  | Except.error e, Except.error f =>
    if h : e = f then isTrue (congrArg Except.error h)
    else isFalse (fun hc => h (Except.error.inj hc))
  | Except.ok x, Except.ok y =>
    if h : x = y then isTrue (congrArg Except.ok h)
    else isFalse (fun hc => h (Except.ok.inj hc))
  | Except.error _, Except.ok _ => isFalse (fun hc => Except.noConfusion hc)
  | Except.ok _, Except.error _ => isFalse (fun hc => Except.noConfusion hc)

/-- Binary logarithm on naturals by fuel-bounded halving; called with the
number itself as fuel, which the halving chain never exhausts. -/
def natLog2F : ℕ → ℕ → ℕ
  | 0, _ => 0
  | f + 1, n => if 2 ≤ n then natLog2F f (n / 2) + 1 else 0

/-- Floor of the binary logarithm of a positive natural. -/
def natLog2 (n : ℕ) : ℕ := natLog2F n n

/-- Integer power of two as a rational. -/
def pow2 (e : ℤ) : ℚ :=
  if 0 ≤ e then ((2 ^ e.toNat : ℕ) : ℚ) else 1 / ((2 ^ (-e).toNat : ℕ) : ℚ)

/-- Floor of the binary logarithm of a positive rational: the bit-length
estimate from numerator and denominator, corrected by direct comparison
(the true exponent is always the estimate or one below it; the outer
branches keep the function total). -/
def ratFloorLog2 (q : ℚ) : ℤ :=
  let e : ℤ := (natLog2 q.num.natAbs : ℤ) - (natLog2 q.den : ℤ)
  if q < pow2 e then e - 1 else if pow2 (e + 1) ≤ q then e + 1 else e

/-- Nearest integer to a rational, ties going to the even integer. -/
def roundHalfEven (x : ℚ) : ℤ :=
  let f := x.floor
  let r := x - (f : ℚ)
  if r < 1 / 2 then f
  else if 1 / 2 < r then f + 1
  else if f % 2 = 0 then f else f + 1

/-- Rounds a nonnegative rational to the nearest IEEE-754 binary64 value
(round to nearest, ties to even, 53-bit significand): the value is scaled
so its significand is an integer in the 52-bit window, rounded half-even,
and scaled back.  The magnitudes the script produces lie well inside the
normal range, so overflow and subnormals do not arise.  Modelled from the
Python runtime's binary64 float arithmetic, which lines 87-91 of
convert.py use for the scale and the resized dimensions. -/
def fpRound (q : ℚ) : ℚ :=
  if q ≤ 0 then 0
  else
    let s := pow2 (52 - ratFloorLog2 q)
    ((roundHalfEven (q * s) : ℤ) : ℚ) / s

/-- Python float true division: ZeroDivisionError on a zero divisor,
otherwise the binary64 rounding of the exact quotient. -/
def pyDivF (a b : ℚ) : Except PyErr ℚ :=
  if b = 0 then Except.error PyErr.zeroDivisionErr
  else Except.ok (fpRound (a / b))

/-- The scale assignment at line 87 of convert.py in binary64: each axis
ratio is a rounded float division and max of two floats is exact. -/
def coverScaleF (target_width target_height width height : ℕ) :
    Except PyErr ℚ := do
  let a ← pyDivF (target_width : ℚ) (width : ℚ)
  let b ← pyDivF (target_height : ℚ) (height : ℚ)
  Except.ok (max a b)

/-- Lines 90-91 of convert.py in binary64: the products width*scale and
height*scale are rounded floats (the integer operands convert exactly),
then truncated by int(). -/
def resizedSizeF (target_width target_height width height : ℕ) :
    Except PyErr (ℤ × ℤ) := do
  let s ← coverScaleF target_width target_height width height
  Except.ok (intTrunc (fpRound ((width : ℚ) * s)),
    intTrunc (fpRound ((height : ℚ) * s)))

/-- Embeds the orientation branch at lines 70-80 of convert.py and records
whether the auto branch (the comparison width > height) executed.  Python
truthiness of the orientation string is nonemptiness.  Returns the target
canvas together with a flag that is true exactly when the auto branch ran. -/
def targetSizePlan (display_orientation : String) (width height : ℕ) :
    (ℕ × ℕ) × Bool :=
  if display_orientation ≠ "" then
    (if display_orientation = "landscape" then ((800, 480), false)
     else ((480, 800), false))
  else
    (if width > height then ((800, 480), true) else ((480, 800), true))

/-- Target canvas dimensions chosen by convert_to_bmp for a given
orientation string and source size. -/
def targetSize (display_orientation : String) (width height : ℕ) : ℕ × ℕ :=
  (targetSizePlan display_orientation width height).1

/-- Embeds the paste offsets at lines 97-98 of convert.py: Python floor
division by two of the difference between canvas and resized size. -/
def pasteLeft (target resized : ℤ) : ℤ := Int.fdiv (target - resized) 2

/-- The seven display colors put into the palette at line 102 of
convert.py: black, white, green, blue, red, yellow, orange. -/
def palette7 : List (ℕ × ℕ × ℕ) :=
  [(0, 0, 0), (255, 255, 255), (0, 255, 0), (0, 0, 255),
   (255, 0, 0), (255, 255, 0), (255, 128, 0)]

/-- The full 256-entry palette handed to putpalette at line 102 of
convert.py: the seven colors followed by 249 copies of black. -/
def paletteFull : List (ℕ × ℕ × ℕ) := palette7 ++ List.replicate 249 (0, 0, 0)

/-- Models the quantize-then-convert step at line 106 of convert.py from
the imaging library contract: quantize yields a P-mode image whose pixels
are indices into the supplied 256-entry palette (whatever indices the
quantizer and the dither algorithm choose), and the conversion to RGB maps
each index to its palette triple. -/
def quantizeToRGB (indices : List (Fin 256)) : List (ℕ × ℕ × ℕ) :=
  indices.map (fun i => paletteFull.getD i.val (0, 0, 0))

/-- Last index of a character in a character list, mirroring str.rfind. -/
def lastIndexOf : List Char → Char → Option ℕ
  | [], _ => none
  | x :: xs, c =>
    match lastIndexOf xs c with
    | some i => some (i + 1)
    | none => if x = c then some 0 else none

/-- Embeds os.path.splitext's root component as used at lines 109-111 of
convert.py, following the CPython algorithm: find the last separator and
the last dot; the extension starts at the dot only when the dot lies in
the basename and the basename has a non-dot character before it. -/
def splitextRoot (p : String) : String :=
  let cs := p.toList
  let sepIdx : Int :=
    match lastIndexOf cs '/' with
    | some i => (i : Int)
    | none => -1
  match lastIndexOf cs '.' with
  | none => p
  | some dotIdx =>
    if sepIdx < (dotIdx : Int) then
      let start : ℕ := (sepIdx + 1).toNat
      let stem := (cs.drop start).take (dotIdx - start)
      if stem.any (fun c => c ≠ '.') then String.mk (cs.take dotIdx) else p
    else p

/-- Embeds lines 109-111 of convert.py: the output name is the
extension-stripped input plus .8b6.bmp, overwritten with .6b8.bmp exactly
when the orientation flag value is landscape. -/
def output_filename (input_filename display_orientation : String) : String :=
  if display_orientation = "landscape" then
    splitextRoot input_filename ++ ".6b8.bmp"
  else
    splitextRoot input_filename ++ ".8b6.bmp"

/-- Decode exceptions the imaging library documents for Image.open plus
verify on a path that is not a well-formed image: FileNotFoundError and
UnidentifiedImageError are OSError (IOError) subclasses raised by open,
other OSError cases cover unreadable data, and verify signals corrupt
image contents with SyntaxError. -/
inductive DecodeExc where
  | fileNotFound
  | unidentifiedImage
  | osErr
  | syn
  deriving DecidableEq, Repr

/-- True when the exception is an instance of IOError (an alias of
OSError), per the Python exception hierarchy. -/
def isOsErrorClass : DecodeExc → Bool
  | DecodeExc.fileNotFound => true
  | DecodeExc.unidentifiedImage => true
  | DecodeExc.osErr => true
  | DecodeExc.syn => false

/-- True when the except clause at line 33 of convert.py, which names
the pair IOError and SyntaxError, catches the exception. -/
def caughtAtLine33 (e : DecodeExc) : Bool :=
  isOsErrorClass e || decide (e = DecodeExc.syn)

/-- Embeds is_valid_image at lines 28-34 of convert.py: the open-and-verify
attempt either succeeds or raises a decode exception; a caught exception
becomes the result false, an uncaught one propagates to the caller. -/
def is_valid_image (attempt : Except DecodeExc Unit) : Except DecodeExc Bool :=
  match attempt with
  | Except.ok _ => Except.ok true
  | Except.error e =>
    if caughtAtLine33 e then Except.ok false else Except.error e

/-- One directory entry as seen by os.listdir, tagged with the result of
the os.path.isfile test used in the list comprehension at line 44. -/
structure DirEntry where
  name : String
  regularFile : Bool

/-- Directory access failures handled by list_filenames. -/
inductive DirErr where
  | notFound
  | permissionDenied
  deriving DecidableEq, Repr

/-- Embeds list_filenames at lines 37-53 of convert.py: on a listing error
the handler prints and returns the empty list; otherwise only the names
whose isfile test holds are kept. -/
def list_filenames (listing : Except DirErr (List DirEntry)) : List String :=
  match listing with
  | Except.error _ => []
  | Except.ok entries =>
    (entries.filter (fun e => e.regularFile)).map (fun e => e.name)

/-- Embeds the counting loop of the directory branch at lines 142-147 of
convert.py: every listed name is converted at inputPath + "/" + name and
the successes are counted. -/
def batchConverted (convert : String → Bool) (inputPath : String)
    (files : List String) : ℕ :=
  files.countP (fun f => convert (inputPath ++ "/" ++ f))

/-- Embeds convert_to_bmp at lines 56-114 of convert.py over an abstract
decoded image: the existence and validity checks return false, then the
geometry stage runs (where a zero dimension raises ZeroDivisionError),
and on success the output name is derived and true is returned.  The two
Boolean oracles stand for the filesystem existence test and the
is_valid_image verdict; no branch of the function inspects the
dimensions before the scale computation. -/
def convert_to_bmp (fileExists : Bool) (validImage : Bool)
    (width height : ℕ) (display_orientation : String)
    (input_filename : String) : Except PyErr (Bool × Option String) :=
  if fileExists = false then Except.ok (false, none)
  else if validImage = false then Except.ok (false, none)
  else do
    let twth := targetSize display_orientation width height
    let _rs ← resizedSize twth.1 twth.2 width height
    Except.ok (true, some (output_filename input_filename display_orientation))

/-- Values held by attributes of the parsed argparse namespace. -/
inductive PyVal where
  | str (s : String)
  | int (n : ℕ)
  | bool (b : Bool)
  deriving DecidableEq, Repr

/-- The argparse namespace produced at line 125 of convert.py: exactly the
four destinations declared by the add_argument calls at lines 120-123,
namely image_file, orient, dither and verbose. -/
structure ArgsNS where
  image_file : String
  orient : String
  dither : ℕ
  verbose : Bool

/-- Attribute lookup on the parsed namespace: defined attributes yield
their value, any other name yields none. -/
def ArgsNS.getattr (ns : ArgsNS) (name : String) : Option PyVal :=
  if name = "image_file" then some (PyVal.str ns.image_file)
  else if name = "orient" then some (PyVal.str ns.orient)
  else if name = "dither" then some (PyVal.int ns.dither)
  else if name = "verbose" then some (PyVal.bool ns.verbose)
  else none

/-- Python attribute access args.name: a missing attribute raises
AttributeError with the attribute's name. -/
def pyGetattr (ns : ArgsNS) (name : String) : Except PyErr PyVal :=
  match ns.getattr name with
  | some v => Except.ok v
  | none => Except.error (PyErr.attributeErr name)

/-- Embeds the module top level after parsing, lines 128-149 of convert.py:
the script reads args.image_file, args.orient, args.mode, args.dither and
args.verbose in that order and only then runs the batch driver, whose
result (the number of converted files) is abstracted by runBatch. -/
def topLevel (ns : ArgsNS) (runBatch : String → String → ℕ → Bool → ℕ) :
    Except PyErr ℕ := do
  let _filename ← pyGetattr ns "image_file"
  let _orientation ← pyGetattr ns "orient"
  let _mode ← pyGetattr ns "mode"
  let _dither ← pyGetattr ns "dither"
  let _verbose ← pyGetattr ns "verbose"
  Except.ok (runBatch ns.image_file ns.orient ns.dither ns.verbose)

/-- Ways the orient option can appear on the command line. -/
inductive CliOrient where
  | absent
  | flagWithoutValue
  | flagWithValue (s : String)

/-- Embeds the argparse declaration of the orient option at line 121 of
convert.py: choices landscape and portrait, optional value, const
portrait, default portrait; a value outside the choices makes argparse
exit with a usage error. -/
def parseOrient : CliOrient → Except PyErr String
  | CliOrient.absent => Except.ok "portrait"
  | CliOrient.flagWithoutValue => Except.ok "portrait"
  | CliOrient.flagWithValue s =>
    if s = "landscape" ∨ s = "portrait" then Except.ok s
    else Except.error PyErr.systemExit

/-- C1: every command-line invocation of the module top level raises an
uncaught AttributeError at the statement mode = args.mode, because the
parser defines no mode argument and the namespace has no mode attribute;
the result is the error whatever batch driver runBatch stands for, so the
batch driver and the per-file pipeline are never reached. -/
theorem top_level_mode_attribute_crash (ns : ArgsNS)
    (runBatch : String → String → ℕ → Bool → ℕ) :
    topLevel ns runBatch = Except.error (PyErr.attributeErr "mode") := rfl

/-- C4: the landscape flag selects the 800 by 480 canvas, the portrait
flag the 480 by 800 canvas, and with no explicit orientation the canvas
is 800 by 480 exactly when the source width exceeds the height. -/
theorem orientation_selects_canvas (width height : ℕ) :
    targetSize "landscape" width height = (800, 480) ∧
    targetSize "portrait" width height = (480, 800) ∧
    targetSize "" width height =
      (if width > height then (800, 480) else (480, 800)) := by
  refine ⟨rfl, rfl, ?_⟩
  by_cases h : width > height <;> simp [targetSize, targetSizePlan, h]

/-- C5: the output filename is the extension-stripped input plus the
suffix .6b8.bmp exactly when the orientation flag value is landscape and
.8b6.bmp otherwise; in particular an auto-selected landscape-shaped
canvas (empty orientation with the 800 by 480 canvas) still yields
.8b6.bmp, the suffix being keyed to the flag, not the canvas shape. -/
theorem output_suffix_keyed_to_flag (p orient : String) (width height : ℕ) :
    (orient = "landscape" →
      output_filename p orient = splitextRoot p ++ ".6b8.bmp") ∧
    (orient ≠ "landscape" →
      output_filename p orient = splitextRoot p ++ ".8b6.bmp") ∧
    (targetSize "" width height = (800, 480) →
      output_filename p "" = splitextRoot p ++ ".8b6.bmp") := by
  refine ⟨fun h => ?_, fun h => ?_, fun _ => ?_⟩
  · simp [output_filename, h]
  · simp [output_filename, h]
  · simp [output_filename]

/-- Witness for C5 at concrete inputs: the three suffix cases evaluated
on the file photo.jpg, the auto case on a 1200 by 800 source whose
canvas is landscape-shaped. -/
theorem output_suffix_keyed_to_flag_witness :
    output_filename "photo.jpg" "landscape" = "photo.6b8.bmp" ∧
    output_filename "photo.jpg" "portrait" = "photo.8b6.bmp" ∧
    output_filename "photo.jpg" "" = "photo.8b6.bmp" := by
  have h1 := (output_suffix_keyed_to_flag "photo.jpg" "landscape" 1200 800).1 rfl
  have h2 := (output_suffix_keyed_to_flag "photo.jpg" "portrait" 1200 800).2.1
    (by decide)
  have h3 := (output_suffix_keyed_to_flag "photo.jpg" "" 1200 800).2.2
    (by decide)
  rw [h1, h2, h3]
  refine ⟨?_, ?_, ?_⟩ <;> rfl

/-- C6: is_valid_image is total on decode outcomes: success yields the
result true, and every decode exception the imaging library raises is
caught by the except clause and becomes the result false, so no decode
error propagates to the caller. -/
theorem valid_image_check_total :
    is_valid_image (Except.ok ()) = Except.ok true ∧
    ∀ e : DecodeExc, is_valid_image (Except.error e) = Except.ok false := by
  refine ⟨rfl, fun e => ?_⟩
  cases e <;> rfl

/-- C7: for a directory listing, the number of conversions counted by the
batch driver never exceeds the total, the total is the number of regular
files directly inside the directory, and the count is exactly the number
of listed files whose conversion at inputPath + "/" + name succeeds. -/
theorem batch_count_bound (convert : String → Bool) (inputPath : String)
    (entries : List DirEntry) :
    batchConverted convert inputPath (list_filenames (Except.ok entries)) ≤
      (list_filenames (Except.ok entries)).length ∧
    (list_filenames (Except.ok entries)).length =
      (entries.filter (fun e => e.regularFile)).length ∧
    batchConverted convert inputPath (list_filenames (Except.ok entries)) =
      ((list_filenames (Except.ok entries)).filter
        (fun f => convert (inputPath ++ "/" ++ f))).length := by
  refine ⟨?_, ?_, ?_⟩
  · exact List.countP_le_length _
  · simp [list_filenames]
  · exact List.countP_eq_length_filter _ _

/-- C10: every successful parse of the orient option yields landscape or
portrait, a nonempty and hence truthy string, so the auto branch of the
orientation selection (the width > height comparison) never executes for
a command-line run. -/
theorem cli_orient_always_truthy (a : CliOrient) (s : String)
    (width height : ℕ) (hp : parseOrient a = Except.ok s) :
    (s = "landscape" ∨ s = "portrait") ∧ s ≠ "" ∧
    (targetSizePlan s width height).2 = false := by
  have hchoice : s = "landscape" ∨ s = "portrait" := by
    cases a with
    | absent =>
      simp only [parseOrient, Except.ok.injEq] at hp
      exact Or.inr hp.symm
    | flagWithoutValue =>
      simp only [parseOrient, Except.ok.injEq] at hp
      exact Or.inr hp.symm
    | flagWithValue t =>
      simp only [parseOrient] at hp
      by_cases h : t = "landscape" ∨ t = "portrait"
      · rw [if_pos h] at hp
        injection hp with h2
        exact h2 ▸ h
      · rw [if_neg h] at hp
        exact absurd hp (by simp)
  have hne : s ≠ "" := by
    rcases hchoice with h | h <;> subst h <;> decide
  refine ⟨hchoice, hne, ?_⟩
  rcases hchoice with h | h <;> subst h <;> rfl

/-- Witness for C10: an invocation without the flag parses to portrait,
which is truthy and keeps the auto branch unexecuted on a 5 by 3 source. -/
theorem cli_orient_always_truthy_witness :
    (("portrait" : String) = "landscape" ∨
      ("portrait" : String) = "portrait") ∧
    ("portrait" : String) ≠ "" ∧
    (targetSizePlan "portrait" 5 3).2 = false :=
  cli_orient_always_truthy CliOrient.absent "portrait" 5 3 rfl

/-- C2: the cover property fails in the program.  For a 97 by 97 source
on the landscape canvas, binary64 evaluation rounds 800/97 below the
exact ratio and int(97 * scale) is 799, one pixel short of the 800-wide
canvas, while the exact-rational reading of the same formulas yields 800
and satisfies the claim; so the claim describes the intent, not the
code. -/
theorem float_cover_violation :
    resizedSizeF 800 480 97 97 = Except.ok (799, 799) ∧
    resizedSize 800 480 97 97 = Except.ok (800, 800) ∧
    (799 : ℤ) < 800 := by
  refine ⟨by with_unfolding_all decide, by with_unfolding_all decide,
    by decide⟩

/-- Floor division by two lands within one of the exact half, in rationals. -/
lemma pasteLeft_centered (t r : ℤ) :
    |((pasteLeft t r : ℤ) : ℚ) + (r : ℚ) / 2 - (t : ℚ) / 2| ≤ 1 := by
  have hfd : pasteLeft t r = (t - r) / 2 := Int.fdiv_eq_ediv _ (by norm_num)
  have hdm : 2 * ((t - r) / 2) + (t - r) % 2 = t - r := Int.ediv_add_emod _ _
  have hm1 : 0 ≤ (t - r) % 2 := Int.emod_nonneg _ (by norm_num)
  have hm2 : (t - r) % 2 < 2 := Int.emod_lt_of_pos _ (by norm_num)
  have h1 : 2 * ((t - r) / 2) ≤ t - r := by omega
  have h2 : t - r < 2 * ((t - r) / 2) + 2 := by omega
  have c1 : (2 : ℚ) * (((t - r) / 2 : ℤ) : ℚ) ≤ (t : ℚ) - r := by
    exact_mod_cast h1
  have c2 : (t : ℚ) - r < 2 * (((t - r) / 2 : ℤ) : ℚ) + 2 := by
    exact_mod_cast h2
  rw [hfd, abs_le]
  constructor <;> linarith

/-- C8: the paste offsets computed by floor division center the resized
image within one pixel on each axis: the offset plus half the resized
size differs from half the canvas size by at most one. -/
theorem paste_offsets_centered
    (target_width resized_width target_height resized_height : ℤ) :
    |((pasteLeft target_width resized_width : ℤ) : ℚ) +
        (resized_width : ℚ) / 2 - (target_width : ℚ) / 2| ≤ 1 ∧
    |((pasteLeft target_height resized_height : ℤ) : ℚ) +
        (resized_height : ℚ) / 2 - (target_height : ℚ) / 2| ≤ 1 :=
  ⟨pasteLeft_centered _ _, pasteLeft_centered _ _⟩

/-- Every entry of the padded 256-entry palette is one of the 7 colors. -/
lemma mem_palette7_of_mem_paletteFull {x : ℕ × ℕ × ℕ}
    (hx : x ∈ paletteFull) : x ∈ palette7 := by
  rcases List.mem_append.mp hx with h | h
  · exact h
  · rw [List.eq_of_mem_replicate h]
    exact List.mem_cons_self _ _

/-- Indexing the padded palette, in or out of range, yields a palette color. -/
lemma getD_paletteFull_mem (n : ℕ) :
    paletteFull.getD n (0, 0, 0) ∈ palette7 := by
  rw [List.getD_eq_getElem?_getD]
  rcases h : paletteFull[n]? with _ | x
  · simp only [Option.getD_none]
    exact List.mem_cons_self _ _
  · have hx : x ∈ paletteFull := List.getElem?_mem h
    simpa using mem_palette7_of_mem_paletteFull hx

/-- C3: the palette is padded to 256 entries, and whatever indices the
quantizer chooses, every pixel of the RGB-converted output is one of
exactly the 7 palette triples. -/
theorem quantized_pixels_in_palette (indices : List (Fin 256)) :
    paletteFull.length = 256 ∧
    ∀ p ∈ quantizeToRGB indices, p ∈ palette7 := by
  have hlen : paletteFull.length = 256 := by
    show (palette7 ++ List.replicate 249 (0, 0, 0)).length = 256
    rw [List.length_append, List.length_replicate]
    rfl
  refine ⟨hlen, fun p hp => ?_⟩
  simp only [quantizeToRGB, List.mem_map] at hp
  obtain ⟨i, _, rfl⟩ := hp
  exact getD_paletteFull_mem i.val

/-- Witness for C3: quantizing one pixel to palette index 1 produces the
white triple, which is among the 7 palette colors. -/
theorem quantized_pixels_in_palette_witness :
    paletteFull.length = 256 ∧ (255, 255, 255) ∈ palette7 :=
  ⟨(quantized_pixels_in_palette []).1,
    (quantized_pixels_in_palette [(1 : Fin 256)]).2 (255, 255, 255)
      (by decide)⟩

/-- A zero width or height makes the scale computation raise
ZeroDivisionError, since one of the two Python divisions has divisor 0. -/
lemma coverScale_zero (target_width target_height width height : ℕ)
    (hz : width = 0 ∨ height = 0) :
    coverScale target_width target_height width height =
      Except.error PyErr.zeroDivisionErr := by
  rcases hz with hz | hz
  · subst hz
    simp only [coverScale, pyDiv, Nat.cast_zero, if_pos rfl]
    rfl
  · subst hz
    by_cases hw : ((width : ℚ)) = 0
    · simp only [coverScale, pyDiv, Nat.cast_zero, if_pos hw, if_pos rfl]
      rfl
    · simp only [coverScale, pyDiv, Nat.cast_zero, if_neg hw, if_pos rfl]
      rfl

/-- C9 counterexample: a decodable source of width 0 and height 100 passes
the existence and validity checks and reaches the scale computation,
where the division by the zero width raises ZeroDivisionError; no branch
of convert_to_bmp rejects the zero dimension first. -/
theorem zero_width_reaches_division :
    convert_to_bmp true true 0 100 "portrait" "photo.jpg" =
      Except.error PyErr.zeroDivisionErr := by
  have h := coverScale_zero 480 800 0 100 (Or.inl rfl)
  simp only [convert_to_bmp, resizedSize, targetSize, targetSizePlan, h]
  rfl

/-- C9 amended: convert_to_bmp has no zero-dimension guard, so for every
source image with width or height zero that passes the existence and
validity checks, the geometry stage evaluates a division with zero
divisor and the call raises an uncaught ZeroDivisionError. -/
theorem zero_dim_division_uncaught (width height : ℕ)
    (display_orientation input_filename : String)
    (h : width = 0 ∨ height = 0) :
    convert_to_bmp true true width height display_orientation
        input_filename = Except.error PyErr.zeroDivisionErr := by
  have hc := coverScale_zero
    (targetSize display_orientation width height).1
    (targetSize display_orientation width height).2 width height h
  simp only [convert_to_bmp, resizedSize, hc]
  rfl

/-- Witness for C9 amended: a 5 by 0 source under the landscape flag
raises ZeroDivisionError in the geometry stage. -/
theorem zero_dim_division_uncaught_witness :
    convert_to_bmp true true 5 0 "landscape" "a.png" =
      Except.error PyErr.zeroDivisionErr :=
  zero_dim_division_uncaught 5 0 "landscape" "a.png" (Or.inr rfl)
